import Mathlib

/-
Shallow embedding of the hh package (src/hh.go): an adapter that lets HTTP
handlers return errors, buffers all response output until the handler
finishes, and converts the final error (if any) into exactly one response.

Modelling conventions:
- Go byte slices and strings are both modelled as Lean String (the package
  never inspects individual bytes).
- A Go error value is modelled by the inductive GoError; a possibly nil
  Go error is Option GoError (none = nil).
- http.Header (map from string to list of string) is modelled as an
  association list without duplicate keys; Go map iteration order is not
  specified, so we fix insertion order as a determinization (all map
  operations used here are per-key, so results agree with any order).
- The real http.ResponseWriter downstream of the adapter is modelled by
  Sink, which records the header map, every WriteHeader call in order, and
  the concatenation of all body writes.
-/

namespace HH

/-- Model of http.Header: association list from header name to values,
maintained without duplicate keys by the operations below. -/
abbrev Header := List (String × List String)

/-- True when the map holds key k. -/
def Header.hasKey (h : Header) (k : String) : Bool :=
  h.any (fun kv => kv.1 == k)

/-- Model of map assignment h[k] = vs: replace in place when the key is
present, append otherwise. -/
def Header.set (h : Header) (k : String) (vs : List String) : Header :=
  if h.hasKey k then
    h.map (fun kv => if kv.1 == k then (k, vs) else kv)
  else
    h ++ [(k, vs)]

/-- Model of map deletion delete(h, k). -/
def Header.del (h : Header) (k : String) : Header :=
  h.filter (fun kv => kv.1 != k)

/-- The list of keys of a header map. -/
def Header.keys (h : Header) : List String :=
  h.map Prod.fst

/-- The invariant maintained by the header operations: no duplicate keys. -/
def Header.keysNodup (h : Header) : Prop :=
  h.keys.Nodup

/-- Observation of the real http.ResponseWriter: the header map, the list of
status codes passed to WriteHeader (in order), and the concatenated body. -/
structure Sink where
  header : Header
  status : List Nat
  body : String
deriving DecidableEq

/-- A fresh downstream response writer: nothing written yet. -/
def Sink.empty : Sink :=
  { header := [], status := [], body := "" }

/-- Model of http.StatusText for the status codes this package and its
claims use; the stdlib returns the empty string for unknown codes. -/
def statusText : Nat → String
  | 200 => "OK"
  | 400 => "Bad Request"
  | 401 => "Unauthorized"
  | 403 => "Forbidden"
  | 404 => "Not Found"
  | 405 => "Method Not Allowed"
  | 429 => "Too Many Requests"
  | 500 => "Internal Server Error"
  | 503 => "Service Unavailable"
  | _ => ""

/-- Model of the stdlib helper http.Error(w, msg, code): it deletes the
Content-Length header, sets Content-Type to text/plain; charset=utf-8 and
X-Content-Type-Options to nosniff, writes the status code, then writes msg
followed by a newline (fmt.Fprintln). -/
def httpError (w : Sink) (msg : String) (code : Nat) : Sink :=
  { header :=
      ((w.header.del "Content-Length").set "Content-Type"
        ["text/plain; charset=utf-8"]).set "X-Content-Type-Options" ["nosniff"],
    status := w.status ++ [code],
    body := w.body ++ msg ++ "\n" }

/-- Model of a Go error value. Constructors model the capabilities a Go
error dynamically exposes, as probed by asHTTPResponseError:
- responseError: the package type ResponseError, which implements
  HTTPResponseError by calling http.Error(w, StatusText, StatusCode);
- basic: an error with neither unwrap capability nor HTTPResponseError
  (errors.New, stdlib errors such as json encoding failures);
- wrapped: an error with a message and a single-cause Unwrap() error method
  (fmt.Errorf with one w-verb); the cause may be nil;
- joined: an error with a multi-cause Unwrap() list-of-errors method
  (errors.Join and similar), with its message and causes in group order;
- custom: any other user type implementing HTTPResponseError, carrying its
  message and its RenderHTTP behavior against the real sink. -/
inductive GoError where
  | responseError (statusCode : Nat) (statusText : String)
  | basic (msg : String)
  | wrapped (msg : String) (cause : Option GoError)
  | joined (msg : String) (causes : List GoError)
  | custom (msg : String) (render : Sink → Sink)

/-- The Error() string of a modelled error. ResponseError formats itself as
StatusCode: StatusText (hh.go line 25); the other constructors carry their
message directly. -/
def GoError.message : GoError → String
  | .responseError c t => toString c ++ ": " ++ t
  | .basic m => m
  | .wrapped m _ => m
  | .joined m _ => m
  | .custom m _ => m

/-- Whether the dynamic type of the error implements HTTPResponseError. -/
def isRenderable : GoError → Bool
  | .responseError _ _ => true
  | .custom _ _ => true
  | _ => false

/-- The RenderHTTP behavior of a renderable error against the real sink.
ResponseError renders via http.Error(w, StatusText, StatusCode) (hh.go line
29); a custom implementation runs its own render function. The remaining
constructors do not implement HTTPResponseError and are never passed here
by Wrap. -/
def renderHTTP : GoError → Sink → Sink
  | .responseError c t, w => httpError w t c
  | .custom _ r, w => r w
  | .basic _, w => w
  | .wrapped _ _, w => w
  | .joined _ _, w => w

mutual

/-- Model of asHTTPResponseError (hh.go lines 116 to 139): return the error
itself when it implements HTTPResponseError; follow a single-cause Unwrap,
stopping with none when the cause is nil; for a multi-cause Unwrap, try the
contained causes in group order and return the first that resolves; plain
errors resolve to none. The joined case iterates its causes exactly like
the for loop in the source. -/
def asHTTPResponseError : GoError → Option GoError
  | .responseError c t => some (.responseError c t)
  | .custom m r => some (.custom m r)
  | .basic _ => none
  | .wrapped _ none => none
  | .wrapped _ (some e) => asHTTPResponseError e
  | .joined _ causes => firstHTTPResponseError causes
termination_by structural e => e

/-- The loop over the causes of a grouped error inside asHTTPResponseError:
resolve each cause in group order and return the first success. -/
def firstHTTPResponseError : List GoError → Option GoError
  | [] => none
  | e :: rest =>
    match asHTTPResponseError e with
    | some hre => some hre
    | none => firstHTTPResponseError rest
termination_by structural l => l

end

/-- Reachability through the unwrap structure of an error: the error
itself, anything reachable through a single-cause Unwrap, and anything
reachable through a member of a multi-cause Unwrap. This is the search
space of errors.Is and errors.As. -/
inductive ReachableByUnwrap : GoError → GoError → Prop where
  | refl (e : GoError) : ReachableByUnwrap e e
  | viaWrapped (m : String) (c t : GoError) :
      ReachableByUnwrap c t → ReachableByUnwrap (.wrapped m (some c)) t
  | viaJoined (m : String) (cs : List GoError) (c t : GoError) :
      c ∈ cs → ReachableByUnwrap c t → ReachableByUnwrap (.joined m cs) t

/-- Model of hh.Error: a ResponseError with the default status text. -/
def Error (statusCode : Nat) : GoError :=
  .responseError statusCode (statusText statusCode)

/-- Model of hh.ErrorText: a ResponseError with the given text. -/
def ErrorText (statusCode : Nat) (s : String) : GoError :=
  .responseError statusCode s

/-- Model of hh.Errorf: the fmt.Sprintf formatting happens eagerly at
construction time, so the model receives the formatted result. -/
def Errorf (statusCode : Nat) (formatted : String) : GoError :=
  .responseError statusCode formatted

/-- Model of a value passed to hh.ErrorJSON, by its json.Marshal outcome
(the spec treats JSON encoding internals as out of scope; only pass or fail
matters): marshal is the encoded bytes on success and none on failure,
goRepr is the Sprintf hash-v rendering of the value, and marshalErrMsg is
the message of the marshal error when encoding fails. Stdlib json errors
never implement HTTPResponseError, so the failure cause is a basic error. -/
structure JData where
  goRepr : String
  marshal : Option String
  marshalErrMsg : String

/-- Model of hh.ErrorJSON (hh.go lines 53 to 59): on encoding success, a
ResponseError whose text is the encoded JSON; on failure, the fmt.Errorf
result whose message embeds the marshal error and the value rendering, and
which wraps (w-verb) the marshal error. -/
def ErrorJSON (statusCode : Nat) (data : JData) : GoError :=
  match data.marshal with
  | some buf => .responseError statusCode buf
  | none =>
    .wrapped
      ("hh.ErrorJSON: encoding failed: " ++ data.marshalErrMsg ++
        " (value: " ++ data.goRepr ++ ")")
      (some (.basic data.marshalErrMsg))

/-- Sentinel hh.ErrBadRequest. -/
def ErrBadRequest : GoError := Error 400

/-- Sentinel hh.ErrUnauthorized. -/
def ErrUnauthorized : GoError := Error 401

/-- Sentinel hh.ErrMethodNotAllowed. -/
def ErrMethodNotAllowed : GoError := Error 405

/-- Sentinel hh.ErrNotFound. -/
def ErrNotFound : GoError := Error 404

/-- Sentinel hh.ErrTooManyRequests. -/
def ErrTooManyRequests : GoError := Error 429

/-- Sentinel hh.ErrInternalServerError. -/
def ErrInternalServerError : GoError := Error 500

/-- Sentinel hh.ErrServiceUnavailable. -/
def ErrServiceUnavailable : GoError := Error 503

/-- Model of bytes.Buffer restricted to the operations the package uses. -/
structure Buffer where
  data : String

/-- Model of bytes.Buffer Write: appends and, per its documented contract,
returns the length of the input and a nil error. -/
def Buffer.write (buf : Buffer) (b : String) : Buffer × Nat × Option GoError :=
  ({ data := buf.data ++ b }, b.length, none)

/-- Model of bufferingResponseWriter (hh.go lines 141 to 148): the in-memory
capture standing in for the real sink while the handler runs. The header
field is an Option because the Go field starts as a nil map that Header()
allocates on first use. -/
structure bufferingResponseWriter where
  header : Option Header
  buffer : Buffer
  code : Nat
  wroteCode : Bool
  wroteBody : Bool
  err : Option GoError

/-- The zero value of bufferingResponseWriter, as allocated by Wrap with
new(bufferingResponseWriter). -/
def bufferingResponseWriter.init : bufferingResponseWriter :=
  { header := none, buffer := { data := "" }, code := 0,
    wroteCode := false, wroteBody := false, err := none }

/-- The header map contents of the capture; the nil map reads as empty. -/
def bufferingResponseWriter.headerList (w : bufferingResponseWriter) : Header :=
  w.header.getD []

/-- Model of setError (hh.go lines 187 to 191): record err only when no
error has been recorded yet, so the first discipline error is sticky. -/
def bufferingResponseWriter.setError (w : bufferingResponseWriter)
    (e : GoError) : bufferingResponseWriter :=
  match w.err with
  | none => { w with err := some e }
  | some _ => w

/-- Model of a handler calling Header() and mutating the returned map by f
(hh.go lines 150 to 164). Header() first allocates the map if nil. While
the body has not started it returns the live map, so the mutation lands in
the capture; once the body has started it records the discipline error and
returns a defensive copy, so the mutation has no effect on the capture. -/
def bufferingResponseWriter.modifyHeader (w : bufferingResponseWriter)
    (f : Header → Header) : bufferingResponseWriter :=
  let allocated := { w with header := some w.headerList }
  if w.wroteBody then
    allocated.setError (ErrorText 500 "headers modified after being sent")
  else
    { allocated with header := some (f w.headerList) }

/-- Model of WriteHeader (hh.go lines 174 to 185): a second call, or a call
after the body has started, records a discipline error and changes nothing
else; otherwise the code is recorded and wroteCode is set. -/
def bufferingResponseWriter.WriteHeader (w : bufferingResponseWriter)
    (code : Nat) : bufferingResponseWriter :=
  if w.wroteCode then
    w.setError (ErrorText 500 "multiple calls to WriteHeader")
  else if w.wroteBody then
    w.setError (ErrorText 500 "WriteHeader called after Write")
  else
    { w with code := code, wroteCode := true }

/-- Model of Write (hh.go lines 166 to 172): implicitly writes status 200
when no status was written yet, marks the body as started, and appends to
the buffer, returning the result of the buffer write. -/
def bufferingResponseWriter.Write (w : bufferingResponseWriter)
    (b : String) : bufferingResponseWriter × Nat × Option GoError :=
  let w1 := if w.wroteCode then w else w.WriteHeader 200
  let w2 := { w1 with wroteBody := true }
  let r := w2.buffer.write b
  ({ w2 with buffer := r.1 }, r.2)

/-- The header-copy loop of flush: for each recorded header entry, assign
it into the destination header map. -/
def copyHeaders (l : Header) (dst : Sink) : Sink :=
  l.foldl (fun d kv => { d with header := d.header.set kv.1 kv.2 }) dst

/-- Model of flush (hh.go lines 193 to 205): copy the captured headers into
the real sink, write the captured status code if one was recorded, then
write the buffered body if nonempty (downstream write errors are ignored,
which the Sink model has no way to produce anyway). -/
def bufferingResponseWriter.flush (w : bufferingResponseWriter)
    (dst : Sink) : Sink :=
  let d1 := copyHeaders w.headerList dst
  let d2 := if w.wroteCode then { d1 with status := d1.status ++ [w.code] } else d1
  if w.buffer.data.length > 0 then { d2 with body := d2.body ++ w.buffer.data } else d2

/-- One interface call a handler can make on its response writer. A handler
interacts with the capture only through Header() mutations, WriteHeader,
and Write, so its effect on the capture is fully described by the sequence
of such calls it makes. setHeader and delHeader are map mutations performed
through the map returned by Header(). -/
inductive HOp where
  | writeHeader (code : Nat)
  | write (b : String)
  | setHeader (k : String) (vs : List String)
  | delHeader (k : String)

/-- Apply one handler interface call to the capture. -/
def applyOp (w : bufferingResponseWriter) : HOp → bufferingResponseWriter
  | .writeHeader c => w.WriteHeader c
  | .write b => (w.Write b).1
  | .setHeader k vs => w.modifyHeader (fun h => h.set k vs)
  | .delHeader k => w.modifyHeader (fun h => h.del k)

/-- Run a sequence of handler interface calls against the capture. -/
def runOps (ops : List HOp) (w : bufferingResponseWriter) :
    bufferingResponseWriter :=
  ops.foldl applyOp w

/-- A wrapped handler, described by the writer calls it makes (in order)
and the error it returns. The request argument carries no information the
core inspects and is omitted. -/
structure Handler where
  ops : List HOp
  ret : Option GoError

/-- An errorware stage: a function from the current error to the next
error. The request argument is omitted as for Handler. -/
abbrev Errorware := Option GoError → Option GoError

/-- The errorware loop of Wrap (hh.go lines 98 to 100): thread the error
through every stage in registration order. -/
def applyErrorware (ew : List Errorware) (e : Option GoError) :
    Option GoError :=
  ew.foldl (fun acc fn => fn acc) e

/-- The error merge of Wrap (hh.go lines 91 to 97): when the capture
recorded an error and the handler also returned one, build the fmt.Errorf
composite whose message embeds the capture error (v-verb, message only)
and which wraps the handler error (w-verb); when only one is present use
it; when neither, nil. -/
def mergeErr (bufwErr handlerErr : Option GoError) : Option GoError :=
  match bufwErr, handlerErr with
  | none, he => he
  | some be, none => some be
  | some be, some he =>
    some (.wrapped
      ("response write error (" ++ be.message ++ ") after handler error: " ++
        he.message)
      (some he))

/-- Model of Wrap (hh.go lines 87 to 114), as the response-writer
transformer the returned http.HandlerFunc performs: run the handler against
a fresh capture, merge the handler error with any capture error, thread the
result through the errorware, then either flush the capture (nil error),
render the resolved HTTPResponseError against the real sink, or emit the
generic 500 via http.Error. -/
def Wrap (h : Handler) (errorware : List Errorware) (w : Sink) : Sink :=
  let bufw := runOps h.ops bufferingResponseWriter.init
  let err := applyErrorware errorware (mergeErr bufw.err h.ret)
  match err with
  | none => bufw.flush w
  | some e =>
    match asHTTPResponseError e with
    | none => httpError w (statusText 500) 500
    | some re => renderHTTP re w

/-- How many WriteHeader calls a sequence of handler ops makes. -/
def countWriteHeaderCalls (ops : List HOp) : Nat :=
  ops.countP (fun op => match op with | .writeHeader _ => true | _ => false)

/-- The shape every capture-discipline error has: a ResponseError with
status 500 (all setError call sites pass ErrorText 500). -/
def disciplineShaped (w : bufferingResponseWriter) : Prop :=
  w.err = none ∨ ∃ m, w.err = some (.responseError 500 m)

section HeaderLemmas

lemma Header.hasKey_eq_false_iff (h : Header) (k : String) :
    Header.hasKey h k = false ↔ k ∉ Header.keys h := by
  constructor
  · intro hf hmem
    rcases List.mem_map.mp hmem with ⟨kv, hkv, hfst⟩
    have hany : List.any h (fun kv => kv.1 == k) = true :=
      List.any_eq_true.mpr ⟨kv, hkv, beq_iff_eq.mpr hfst⟩
    rw [Header.hasKey] at hf
    rw [hf] at hany
    exact Bool.false_ne_true hany
  · intro hmem
    cases hcase : Header.hasKey h k
    · rfl
    · exfalso
      rw [Header.hasKey] at hcase
      rcases List.any_eq_true.mp hcase with ⟨kv, hkv, hbeq⟩
      exact hmem (List.mem_map.mpr ⟨kv, hkv, beq_iff_eq.mp hbeq⟩)

lemma Header.set_of_fresh (h : Header) (k : String) (vs : List String)
    (hk : Header.hasKey h k = false) :
    Header.set h k vs = h ++ [(k, vs)] := by
  simp [Header.set, hk]

lemma Header.keys_set_of_hasKey (h : Header) (k : String) (vs : List String)
    (hk : Header.hasKey h k = true) :
    Header.keys (Header.set h k vs) = Header.keys h := by
  simp only [Header.set, hk, if_true]
  simp only [Header.keys, List.map_map]
  refine List.map_congr_left ?_
  intro kv _
  simp only [Function.comp_apply]
  by_cases hkv : kv.1 = k
  · simp [hkv]
  · simp [hkv]

lemma Header.keysNodup_set (h : Header) (k : String) (vs : List String)
    (hn : Header.keysNodup h) : Header.keysNodup (Header.set h k vs) := by
  by_cases hk : Header.hasKey h k = true
  · unfold Header.keysNodup
    rw [Header.keys_set_of_hasKey h k vs hk]
    exact hn
  · have hk2 : Header.hasKey h k = false := by
      cases hcase : Header.hasKey h k
      · rfl
      · exact absurd hcase hk
    unfold Header.keysNodup
    rw [Header.set_of_fresh h k vs hk2]
    unfold Header.keys
    rw [List.map_append]
    refine List.Nodup.append hn ?_ ?_
    · simp
    · intro a ha hb
      simp only [List.map_cons, List.map_nil, List.mem_singleton] at hb
      subst hb
      exact (Header.hasKey_eq_false_iff h a).mp hk2 ha

lemma Header.keysNodup_del (h : Header) (k : String)
    (hn : Header.keysNodup h) : Header.keysNodup (Header.del h k) := by
  unfold Header.keysNodup Header.keys at hn ⊢
  unfold Header.del
  exact hn.sublist (List.Sublist.map Prod.fst (List.filter_sublist h))

lemma foldl_set_of_fresh :
    ∀ (l : Header) (h0 : Header), Header.keysNodup l →
      (∀ p ∈ l, Header.hasKey h0 p.1 = false) →
      l.foldl (fun h kv => Header.set h kv.1 kv.2) h0 = h0 ++ l := by
  intro l
  induction l with
  | nil => intro h0 _ _; simp
  | cons kv rest ih =>
    intro h0 hn hfresh
    have hk : Header.hasKey h0 kv.1 = false := hfresh kv (List.mem_cons_self kv rest)
    have hn2 : (kv.1 :: List.map Prod.fst rest).Nodup := by
      unfold Header.keysNodup Header.keys at hn
      simpa using hn
    have hnodup_rest : Header.keysNodup rest := by
      unfold Header.keysNodup Header.keys
      exact (List.nodup_cons.mp hn2).2
    have hnotin : kv.1 ∉ List.map Prod.fst rest := (List.nodup_cons.mp hn2).1
    have hfresh2 : ∀ p ∈ rest, Header.hasKey (h0 ++ [(kv.1, kv.2)]) p.1 = false := by
      intro p hp
      have h1 : Header.hasKey h0 p.1 = false := hfresh p (List.mem_cons_of_mem kv hp)
      have h2 : kv.1 ≠ p.1 := by
        intro hpe
        exact hnotin (hpe ▸ List.mem_map_of_mem Prod.fst hp)
      unfold Header.hasKey at h1 ⊢
      rw [List.any_append, h1]
      simp [h2]
    calc (kv :: rest).foldl (fun h kv => Header.set h kv.1 kv.2) h0
        = rest.foldl (fun h kv => Header.set h kv.1 kv.2) (Header.set h0 kv.1 kv.2) := by
          rw [List.foldl_cons]
      _ = rest.foldl (fun h kv => Header.set h kv.1 kv.2) (h0 ++ [(kv.1, kv.2)]) := by
          rw [Header.set_of_fresh h0 kv.1 kv.2 hk]
      _ = (h0 ++ [(kv.1, kv.2)]) ++ rest := ih (h0 ++ [(kv.1, kv.2)]) hnodup_rest hfresh2
      _ = h0 ++ (kv :: rest) := by simp

end HeaderLemmas

section WriterLemmas

lemma setError_err_sticky (w : bufferingResponseWriter) (x e : GoError)
    (h : w.err = some e) : (w.setError x).err = some e := by
  unfold bufferingResponseWriter.setError
  rw [h]
  exact h

lemma setError_err_ne_none (w : bufferingResponseWriter) (x : GoError) :
    (w.setError x).err ≠ none := by
  unfold bufferingResponseWriter.setError
  cases h : w.err with
  | none => simp
  | some v => simp [h]

lemma setError_header (w : bufferingResponseWriter) (x : GoError) :
    (w.setError x).header = w.header := by
  unfold bufferingResponseWriter.setError
  cases h : w.err <;> simp

lemma setError_wroteCode (w : bufferingResponseWriter) (x : GoError) :
    (w.setError x).wroteCode = w.wroteCode := by
  unfold bufferingResponseWriter.setError
  cases h : w.err <;> simp

lemma WriteHeader_err_sticky (w : bufferingResponseWriter) (c : Nat) (e : GoError)
    (h : w.err = some e) : (w.WriteHeader c).err = some e := by
  unfold bufferingResponseWriter.WriteHeader
  split
  · exact setError_err_sticky w _ e h
  · split
    · exact setError_err_sticky w _ e h
    · exact h

lemma Write_err_sticky (w : bufferingResponseWriter) (b : String) (e : GoError)
    (h : w.err = some e) : ((w.Write b).1).err = some e := by
  unfold bufferingResponseWriter.Write
  split
  · exact h
  · exact WriteHeader_err_sticky w 200 e h

lemma modifyHeader_err_sticky (w : bufferingResponseWriter) (f : Header → Header)
    (e : GoError) (h : w.err = some e) : (w.modifyHeader f).err = some e := by
  unfold bufferingResponseWriter.modifyHeader
  split
  · exact setError_err_sticky _ _ e h
  · exact h

lemma applyOp_err_sticky (w : bufferingResponseWriter) (op : HOp) (e : GoError)
    (h : w.err = some e) : (applyOp w op).err = some e := by
  cases op with
  | writeHeader c => exact WriteHeader_err_sticky w c e h
  | write b => exact Write_err_sticky w b e h
  | setHeader k vs => exact modifyHeader_err_sticky w _ e h
  | delHeader k => exact modifyHeader_err_sticky w _ e h

lemma runOps_err_sticky (ops : List HOp) (w : bufferingResponseWriter)
    (e : GoError) (h : w.err = some e) : (runOps ops w).err = some e := by
  induction ops generalizing w with
  | nil => exact h
  | cons op rest ih =>
    unfold runOps at ih ⊢
    rw [List.foldl_cons]
    exact ih (applyOp w op) (applyOp_err_sticky w op e h)

lemma runOps_err_ne_none (ops : List HOp) (w : bufferingResponseWriter)
    (h : w.err ≠ none) : (runOps ops w).err ≠ none := by
  cases hcase : w.err with
  | none => exact absurd hcase h
  | some e =>
    rw [runOps_err_sticky ops w e hcase]
    simp

lemma WriteHeader_header (w : bufferingResponseWriter) (c : Nat) :
    (w.WriteHeader c).header = w.header := by
  unfold bufferingResponseWriter.WriteHeader
  split
  · exact setError_header w _
  · split
    · exact setError_header w _
    · rfl

lemma Write_header (w : bufferingResponseWriter) (b : String) :
    ((w.Write b).1).header = w.header := by
  unfold bufferingResponseWriter.Write
  split
  · rfl
  · exact WriteHeader_header w 200

lemma setError_discipline (w : bufferingResponseWriter) (m : String)
    (h : disciplineShaped w) :
    disciplineShaped (w.setError (ErrorText 500 m)) := by
  unfold bufferingResponseWriter.setError
  rcases h with hnone | ⟨m0, hsome⟩
  · rw [hnone]
    exact Or.inr ⟨m, rfl⟩
  · rw [hsome]
    exact Or.inr ⟨m0, hsome⟩

lemma WriteHeader_discipline (w : bufferingResponseWriter) (c : Nat)
    (h : disciplineShaped w) : disciplineShaped (w.WriteHeader c) := by
  unfold bufferingResponseWriter.WriteHeader
  split
  · exact setError_discipline w _ h
  · split
    · exact setError_discipline w _ h
    · exact h

lemma applyOp_discipline (w : bufferingResponseWriter) (op : HOp)
    (h : disciplineShaped w) : disciplineShaped (applyOp w op) := by
  cases op with
  | writeHeader c => exact WriteHeader_discipline w c h
  | write b =>
    show disciplineShaped ((w.Write b).1)
    unfold bufferingResponseWriter.Write
    split
    · exact h
    · exact WriteHeader_discipline w 200 h
  | setHeader k vs =>
    show disciplineShaped (w.modifyHeader _)
    unfold bufferingResponseWriter.modifyHeader
    split
    · exact setError_discipline _ _ h
    · exact h
  | delHeader k =>
    show disciplineShaped (w.modifyHeader _)
    unfold bufferingResponseWriter.modifyHeader
    split
    · exact setError_discipline _ _ h
    · exact h

lemma runOps_discipline (ops : List HOp) (w : bufferingResponseWriter)
    (h : disciplineShaped w) : disciplineShaped (runOps ops w) := by
  induction ops generalizing w with
  | nil => exact h
  | cons op rest ih =>
    unfold runOps at ih ⊢
    rw [List.foldl_cons]
    exact ih (applyOp w op) (applyOp_discipline w op h)

lemma applyOp_wroteCode_mono (w : bufferingResponseWriter) (op : HOp)
    (h : w.wroteCode = true) : (applyOp w op).wroteCode = true := by
  cases op with
  | writeHeader c =>
    show (w.WriteHeader c).wroteCode = true
    unfold bufferingResponseWriter.WriteHeader
    rw [h]
    simp only [if_true]
    rw [setError_wroteCode w _]
    exact h
  | write b =>
    show ((w.Write b).1).wroteCode = true
    unfold bufferingResponseWriter.Write
    simp only [h, if_true]
  | setHeader k vs =>
    show (w.modifyHeader _).wroteCode = true
    unfold bufferingResponseWriter.modifyHeader
    split
    · rw [setError_wroteCode _ _]
      exact h
    · exact h
  | delHeader k =>
    show (w.modifyHeader _).wroteCode = true
    unfold bufferingResponseWriter.modifyHeader
    split
    · rw [setError_wroteCode _ _]
      exact h
    · exact h

lemma WriteHeader_code_or_err (w : bufferingResponseWriter) (c : Nat) :
    (w.WriteHeader c).wroteCode = true ∨ (w.WriteHeader c).err ≠ none := by
  unfold bufferingResponseWriter.WriteHeader
  cases h1 : w.wroteCode with
  | true =>
    simp only [if_true]
    left
    rw [setError_wroteCode w _]
    exact h1
  | false =>
    simp only [Bool.false_eq_true, if_false]
    split
    · right
      exact setError_err_ne_none w _
    · left
      rfl

lemma runOps_code_then_err (ops : List HOp) (w : bufferingResponseWriter)
    (hc : w.wroteCode = true) (hn : 1 ≤ countWriteHeaderCalls ops) :
    (runOps ops w).err ≠ none := by
  induction ops generalizing w with
  | nil => exact absurd hn (by simp [countWriteHeaderCalls])
  | cons op rest ih =>
    unfold runOps at ih ⊢
    rw [List.foldl_cons]
    cases op with
    | writeHeader c =>
      have herr : (applyOp w (.writeHeader c)).err ≠ none := by
        show (w.WriteHeader c).err ≠ none
        unfold bufferingResponseWriter.WriteHeader
        rw [hc]
        simp only [if_true]
        exact setError_err_ne_none w _
      exact runOps_err_ne_none rest _ herr
    | write b =>
      refine ih _ (applyOp_wroteCode_mono w _ hc) ?_
      simpa [countWriteHeaderCalls, List.countP_cons] using hn
    | setHeader k vs =>
      refine ih _ (applyOp_wroteCode_mono w _ hc) ?_
      simpa [countWriteHeaderCalls, List.countP_cons] using hn
    | delHeader k =>
      refine ih _ (applyOp_wroteCode_mono w _ hc) ?_
      simpa [countWriteHeaderCalls, List.countP_cons] using hn

lemma runOps_two_writeHeaders_err (ops : List HOp) (w : bufferingResponseWriter)
    (hn : 2 ≤ countWriteHeaderCalls ops) : (runOps ops w).err ≠ none := by
  induction ops generalizing w with
  | nil => exact absurd hn (by simp [countWriteHeaderCalls])
  | cons op rest ih =>
    unfold runOps at ih ⊢
    rw [List.foldl_cons]
    cases op with
    | writeHeader c =>
      have hrest : 1 ≤ countWriteHeaderCalls rest := by
        have hcount : countWriteHeaderCalls (HOp.writeHeader c :: rest) =
            countWriteHeaderCalls rest + 1 := by
          simp [countWriteHeaderCalls, List.countP_cons]
        omega
      rcases WriteHeader_code_or_err w c with hcode | herr
      · exact runOps_code_then_err rest _ hcode hrest
      · exact runOps_err_ne_none rest _ herr
    | write b =>
      refine ih _ ?_
      simpa [countWriteHeaderCalls, List.countP_cons] using hn
    | setHeader k vs =>
      refine ih _ ?_
      simpa [countWriteHeaderCalls, List.countP_cons] using hn
    | delHeader k =>
      refine ih _ ?_
      simpa [countWriteHeaderCalls, List.countP_cons] using hn

lemma applyOp_headerList_nodup (w : bufferingResponseWriter) (op : HOp)
    (h : Header.keysNodup w.headerList) :
    Header.keysNodup (applyOp w op).headerList := by
  cases op with
  | writeHeader c =>
    unfold bufferingResponseWriter.headerList at h ⊢
    rw [show (applyOp w (.writeHeader c)).header = w.header from WriteHeader_header w c]
    exact h
  | write b =>
    unfold bufferingResponseWriter.headerList at h ⊢
    rw [show (applyOp w (.write b)).header = w.header from Write_header w b]
    exact h
  | setHeader k vs =>
    show Header.keysNodup (w.modifyHeader _).headerList
    unfold bufferingResponseWriter.modifyHeader
    split
    · unfold bufferingResponseWriter.headerList at h ⊢
      rw [setError_header _ _]
      exact h
    · unfold bufferingResponseWriter.headerList at h ⊢
      exact Header.keysNodup_set _ k vs h
  | delHeader k =>
    show Header.keysNodup (w.modifyHeader _).headerList
    unfold bufferingResponseWriter.modifyHeader
    split
    · unfold bufferingResponseWriter.headerList at h ⊢
      rw [setError_header _ _]
      exact h
    · unfold bufferingResponseWriter.headerList at h ⊢
      exact Header.keysNodup_del _ k h

lemma runOps_headerList_nodup (ops : List HOp) (w : bufferingResponseWriter)
    (h : Header.keysNodup w.headerList) :
    Header.keysNodup (runOps ops w).headerList := by
  induction ops generalizing w with
  | nil => exact h
  | cons op rest ih =>
    unfold runOps at ih ⊢
    rw [List.foldl_cons]
    exact ih (applyOp w op) (applyOp_headerList_nodup w op h)

end WriterLemmas

section FlushLemmas

lemma string_eq_empty_of_length_eq_zero (s : String) (h : s.length = 0) :
    s = "" := by
  cases s with
  | mk data =>
    simp only [String.length] at h
    rw [List.length_eq_zero] at h
    rw [h]

lemma empty_string_append (s : String) : "" ++ s = s := rfl

lemma copyHeaders_eq (l : Header) (dst : Sink) :
    copyHeaders l dst =
      { header := l.foldl (fun h kv => Header.set h kv.1 kv.2) dst.header,
        status := dst.status, body := dst.body } := by
  induction l generalizing dst with
  | nil => rfl
  | cons kv rest ih =>
    unfold copyHeaders at ih ⊢
    rw [List.foldl_cons, List.foldl_cons]
    exact ih { dst with header := Header.set dst.header kv.1 kv.2 }

lemma flush_empty (w : bufferingResponseWriter)
    (hn : Header.keysNodup w.headerList) :
    w.flush Sink.empty =
      { header := w.headerList,
        status := if w.wroteCode then [w.code] else [],
        body := w.buffer.data } := by
  unfold bufferingResponseWriter.flush
  rw [copyHeaders_eq]
  have hempty : ∀ p ∈ w.headerList, Header.hasKey ([] : Header) p.1 = false := by
    intro p _
    rfl
  rw [show Sink.empty.header = ([] : Header) from rfl]
  rw [foldl_set_of_fresh w.headerList [] hn hempty]
  rw [List.nil_append]
  by_cases hb : w.buffer.data.length > 0
  · by_cases hc : w.wroteCode = true
    · simp [Sink.empty, hc, hb, empty_string_append]
    · simp [Sink.empty, hc, hb, empty_string_append]
  · have hdata : w.buffer.data = "" :=
      string_eq_empty_of_length_eq_zero _ (by omega)
    by_cases hc : w.wroteCode = true
    · simp [Sink.empty, hc, hb, hdata]
    · simp [Sink.empty, hc, hb, hdata]

end FlushLemmas

section ResolverLemmas

lemma httpError_empty (msg : String) (code : Nat) :
    httpError Sink.empty msg code =
      { header := [("Content-Type", ["text/plain; charset=utf-8"]),
                   ("X-Content-Type-Options", ["nosniff"])],
        status := [code], body := msg ++ "\n" } := by
  unfold httpError Sink.empty
  cases msg with
  | mk data => rfl

lemma firstHTTPResponseError_append_none (pres l : List GoError)
    (hpres : ∀ x ∈ pres, asHTTPResponseError x = none) :
    firstHTTPResponseError (pres ++ l) = firstHTTPResponseError l := by
  induction pres with
  | nil => rfl
  | cons x xs ih =>
    rw [List.cons_append]
    show (match asHTTPResponseError x with
      | some hre => some hre
      | none => firstHTTPResponseError (xs ++ l)) = firstHTTPResponseError l
    rw [hpres x (List.mem_cons_self x xs)]
    exact ih (fun y hy => hpres y (List.mem_cons_of_mem x hy))

end ResolverLemmas

/-- Claim C1: for every handler that writes bytes or headers into the
buffered capture and ends with a non-nil final error (after errorware) that
resolves to a renderable error, the response written to the real sink is
exactly that error rendering itself against the untouched sink, and none of
the buffered partial output (headers, status, or body bytes) reaches the
real sink. -/
theorem wrap_rendering_error_discards_buffered_output (h : Handler)
    (ew : List Errorware) (w0 : Sink) (e re : GoError)
    (hfinal : applyErrorware ew
      (mergeErr (runOps h.ops bufferingResponseWriter.init).err h.ret) = some e)
    (hres : asHTTPResponseError e = some re) :
    Wrap h ew w0 = renderHTTP re w0 := by
  simp only [Wrap, hfinal, hres]

/-- Witness for C1: a handler writes the body bytes partial and then
returns ErrNotFound; the client-visible response is exactly the 404
rendering and the partial bytes never appear. -/
theorem wrap_rendering_error_discards_buffered_output_witness :
    Wrap { ops := [HOp.write "partial"], ret := some ErrNotFound } [] Sink.empty =
      renderHTTP (GoError.responseError 404 "Not Found") Sink.empty :=
  wrap_rendering_error_discards_buffered_output
    { ops := [HOp.write "partial"], ret := some ErrNotFound } [] Sink.empty
    ErrNotFound (GoError.responseError 404 "Not Found") rfl rfl

/-- Claim C2: for every handler that returns nil, causes no capture
discipline violation, and whose errorware pipeline leaves the error nil,
the headers, status code, and body flushed to the real sink are exactly the
headers, status code, and body bytes the handler wrote into the buffered
capture, unmodified and in order. -/
theorem wrap_success_flushes_capture_exactly (h : Handler)
    (ew : List Errorware)
    (herr : (runOps h.ops bufferingResponseWriter.init).err = none)
    (hret : h.ret = none)
    (hew : applyErrorware ew none = none) :
    Wrap h ew Sink.empty =
      { header := (runOps h.ops bufferingResponseWriter.init).headerList,
        status := if (runOps h.ops bufferingResponseWriter.init).wroteCode
          then [(runOps h.ops bufferingResponseWriter.init).code] else [],
        body := (runOps h.ops bufferingResponseWriter.init).buffer.data } := by
  have hnodup : Header.keysNodup (runOps h.ops bufferingResponseWriter.init).headerList := by
    refine runOps_headerList_nodup h.ops bufferingResponseWriter.init ?_
    unfold Header.keysNodup Header.keys bufferingResponseWriter.headerList
      bufferingResponseWriter.init
    simp
  simp only [Wrap, herr, hret, mergeErr, hew]
  exact flush_empty _ hnodup

/-- Witness for C2: a handler sets a Content-Type header and writes hello;
the client sees exactly that header, the implicit 200, and hello. -/
theorem wrap_success_flushes_capture_exactly_witness :
    Wrap { ops := [HOp.setHeader "Content-Type" ["text/plain"], HOp.write "hello"],
           ret := none } [] Sink.empty =
      { header := [("Content-Type", ["text/plain"])], status := [200],
        body := "hello" } :=
  wrap_success_flushes_capture_exactly
    { ops := [HOp.setHeader "Content-Type" ["text/plain"], HOp.write "hello"],
      ret := none } [] rfl rfl rfl

/-- Counterexample to claim C3 as stated: the handler that calls
WriteHeader(200) then WriteHeader(404) and returns nil, with no errorware,
does produce a 500 response, but its body is not the generic Internal
Server Error text: the discipline error is built with ErrorText 500, which
itself implements HTTPResponseError, so its own message renders. -/
theorem wrap_double_writeHeader_body_not_generic :
    (Wrap { ops := [HOp.writeHeader 200, HOp.writeHeader 404], ret := none }
      [] Sink.empty).status = [500] ∧
    (Wrap { ops := [HOp.writeHeader 200, HOp.writeHeader 404], ret := none }
      [] Sink.empty).body ≠ "Internal Server Error" := by
  constructor
  · rfl
  · decide

/-- Claim C3, amended: for every handler that calls WriteHeader at least
twice and returns nil, with no errorware, a discipline error with status
500 is recorded, and the client receives status 500 with that discipline
error message, followed by a newline, as body (not the generic Internal
Server Error text: discipline errors are themselves renderable). -/
theorem wrap_double_writeHeader_renders_discipline_message (h : Handler)
    (hwh : 2 ≤ countWriteHeaderCalls h.ops) (hret : h.ret = none) :
    ∃ m, (runOps h.ops bufferingResponseWriter.init).err =
        some (GoError.responseError 500 m) ∧
      Wrap h [] Sink.empty =
        { header := [("Content-Type", ["text/plain; charset=utf-8"]),
                     ("X-Content-Type-Options", ["nosniff"])],
          status := [500], body := m ++ "\n" } := by
  have hne := runOps_two_writeHeaders_err h.ops bufferingResponseWriter.init hwh
  rcases runOps_discipline h.ops bufferingResponseWriter.init (Or.inl rfl) with
    hnone | ⟨m, hsome⟩
  · exact absurd hnone hne
  · refine ⟨m, hsome, ?_⟩
    simp only [Wrap, hsome, hret, mergeErr, applyErrorware, List.foldl_nil,
      asHTTPResponseError, renderHTTP]
    exact httpError_empty m 500

/-- Witness for the amended C3: WriteHeader(200) then WriteHeader(404) with
nil return and no errorware records the multiple-calls discipline error and
renders it. -/
theorem wrap_double_writeHeader_renders_discipline_message_witness :
    ∃ m, (runOps [HOp.writeHeader 200, HOp.writeHeader 404]
        bufferingResponseWriter.init).err = some (GoError.responseError 500 m) ∧
      Wrap { ops := [HOp.writeHeader 200, HOp.writeHeader 404], ret := none }
        [] Sink.empty =
        { header := [("Content-Type", ["text/plain; charset=utf-8"]),
                     ("X-Content-Type-Options", ["nosniff"])],
          status := [500], body := m ++ "\n" } :=
  wrap_double_writeHeader_renders_discipline_message
    { ops := [HOp.writeHeader 200, HOp.writeHeader 404], ret := none }
    (by decide) rfl

/-- Counterexample to claim C4 as stated: when the capture records a
discipline error and the handler also returns an error, the merged
composite embeds the discipline error only as formatted text (the v-verb of
fmt.Errorf) and wraps only the handler error (the w-verb), so the
discipline error is not reachable from the composite by unwrapping. -/
theorem merged_error_discipline_cause_not_unwrappable :
    mergeErr (some (GoError.responseError 500 "multiple calls to WriteHeader"))
        (some (GoError.basic "boom")) =
      some (GoError.wrapped
        "response write error (500: multiple calls to WriteHeader) after handler error: boom"
        (some (GoError.basic "boom"))) ∧
    ¬ ReachableByUnwrap
        (GoError.wrapped
          "response write error (500: multiple calls to WriteHeader) after handler error: boom"
          (some (GoError.basic "boom")))
        (GoError.responseError 500 "multiple calls to WriteHeader") := by
  constructor
  · rfl
  · intro hreach
    cases hreach with
    | viaWrapped m c t h2 => cases h2

/-- Claim C4, amended: the merged error is the handler error when only it
is present, the discipline error when only it is present, and nil when
neither is present; when both are present the composite preserves the
handler error reachable by unwrapping and preserves the discipline error
only as its message embedded in the composite message text. -/
theorem mergeErr_composite_spec (be he : GoError) :
    mergeErr none none = none ∧
    mergeErr (some be) none = some be ∧
    mergeErr none (some he) = some he ∧
    mergeErr (some be) (some he) =
      some (GoError.wrapped
        ("response write error (" ++ GoError.message be ++
          ") after handler error: " ++ GoError.message he) (some he)) ∧
    ReachableByUnwrap
      (GoError.wrapped
        ("response write error (" ++ GoError.message be ++
          ") after handler error: " ++ GoError.message he) (some he)) he :=
  ⟨rfl, rfl, rfl, rfl,
    ReachableByUnwrap.viaWrapped _ _ he (ReachableByUnwrap.refl he)⟩

/-- Claim C5: the chain resolver returns any error that directly implements
HTTPResponseError; it reaches through two layers of single-cause wrapping;
and on a grouped error whose leading members do not resolve it returns the
resolution of the first member that does, in group order. -/
theorem asHTTPResponseError_resolution :
    (∀ e : GoError, isRenderable e = true → asHTTPResponseError e = some e) ∧
    (∀ (m1 m2 : String) (e : GoError),
      asHTTPResponseError (.wrapped m1 (some (.wrapped m2 (some e)))) =
        asHTTPResponseError e) ∧
    (∀ (gm : String) (pres : List GoError) (e r : GoError) (post : List GoError),
      (∀ x ∈ pres, asHTTPResponseError x = none) →
      asHTTPResponseError e = some r →
      asHTTPResponseError (.joined gm (pres ++ e :: post)) = some r) := by
  refine ⟨?_, ?_, ?_⟩
  · intro e he
    cases e with
    | responseError c t => rfl
    | custom m r => rfl
    | basic m => simp [isRenderable] at he
    | wrapped m c => simp [isRenderable] at he
    | joined m cs => simp [isRenderable] at he
  · intro m1 m2 e
    rfl
  · intro gm pres e r post hpres hres
    show firstHTTPResponseError (pres ++ e :: post) = some r
    rw [firstHTTPResponseError_append_none pres (e :: post) hpres]
    show (match asHTTPResponseError e with
      | some hre => some hre
      | none => firstHTTPResponseError post) = some r
    rw [hres]

/-- Witness for C5: a renderable error two wrapping layers deep is found,
and in a 3-element group whose second and third members are renderable the
second (first in group order that resolves) is returned. -/
theorem asHTTPResponseError_resolution_witness :
    asHTTPResponseError (.wrapped "outer"
        (some (.wrapped "inner" (some (.responseError 429 "slow down"))))) =
      some (.responseError 429 "slow down") ∧
    asHTTPResponseError (.joined "group"
        ([GoError.basic "opaque one"] ++
          GoError.responseError 403 "forbidden" ::
            [GoError.responseError 500 "also renderable"])) =
      some (.responseError 403 "forbidden") :=
  ⟨(asHTTPResponseError_resolution.2.1 "outer" "inner"
      (.responseError 429 "slow down")).trans
    (asHTTPResponseError_resolution.1 (.responseError 429 "slow down") rfl),
   asHTTPResponseError_resolution.2.2 "group" [GoError.basic "opaque one"]
     (GoError.responseError 403 "forbidden") (GoError.responseError 403 "forbidden")
     [GoError.responseError 500 "also renderable"]
     (by
       intro x hx
       rw [List.mem_singleton] at hx
       subst hx
       rfl)
     rfl⟩

/-- Claim C6: for every data value whose JSON encoding fails, ErrorJSON
returns an error that is not renderable and not resolvable to a renderable
error by unwrapping, so a handler returning it always yields the generic
500 response (never truncated or invalid JSON); the encoding cause stays
reachable by unwrapping and the value rendering stays in the message, for
errorware and diagnostic consumption only. -/
theorem errorJSON_encoding_failure_generic_500 (code : Nat) (d : JData)
    (hm : d.marshal = none) :
    isRenderable (ErrorJSON code d) = false ∧
    asHTTPResponseError (ErrorJSON code d) = none ∧
    (∀ (ops : List HOp) (w0 : Sink),
      Wrap { ops := ops, ret := some (ErrorJSON code d) } [] w0 =
        httpError w0 (statusText 500) 500) ∧
    ReachableByUnwrap (ErrorJSON code d) (GoError.basic d.marshalErrMsg) ∧
    GoError.message (ErrorJSON code d) =
      "hh.ErrorJSON: encoding failed: " ++ d.marshalErrMsg ++
        " (value: " ++ d.goRepr ++ ")" := by
  have hEJ : ErrorJSON code d =
      .wrapped ("hh.ErrorJSON: encoding failed: " ++ d.marshalErrMsg ++
        " (value: " ++ d.goRepr ++ ")") (some (.basic d.marshalErrMsg)) := by
    unfold ErrorJSON
    rw [hm]
  refine ⟨by rw [hEJ]; rfl, by rw [hEJ]; rfl, ?_, ?_, by rw [hEJ]; rfl⟩
  · intro ops w0
    cases hb : (runOps ops bufferingResponseWriter.init).err with
    | none =>
      simp only [Wrap, hb, hEJ, mergeErr, applyErrorware, List.foldl_nil,
        asHTTPResponseError]
    | some be =>
      simp only [Wrap, hb, hEJ, mergeErr, applyErrorware, List.foldl_nil,
        asHTTPResponseError]
  · rw [hEJ]
    exact ReachableByUnwrap.viaWrapped _ _ _ (ReachableByUnwrap.refl _)

/-- Witness for C6: a concrete unencodable value (a function value, as
json.Marshal rejects func types) produces a non-renderable error and a
generic 500 through Wrap. -/
theorem errorJSON_encoding_failure_generic_500_witness :
    isRenderable (ErrorJSON 429
        { goRepr := "(func())(0x1234)", marshal := none,
          marshalErrMsg := "json: unsupported type: func()" }) = false ∧
    asHTTPResponseError (ErrorJSON 429
        { goRepr := "(func())(0x1234)", marshal := none,
          marshalErrMsg := "json: unsupported type: func()" }) = none ∧
    Wrap { ops := [HOp.write "x"],
           ret := some (ErrorJSON 429
             { goRepr := "(func())(0x1234)", marshal := none,
               marshalErrMsg := "json: unsupported type: func()" }) } [] Sink.empty =
      httpError Sink.empty (statusText 500) 500 ∧
    ReachableByUnwrap
      (ErrorJSON 429
        { goRepr := "(func())(0x1234)", marshal := none,
          marshalErrMsg := "json: unsupported type: func()" })
      (GoError.basic "json: unsupported type: func()") :=
  have T := errorJSON_encoding_failure_generic_500 429
    { goRepr := "(func())(0x1234)", marshal := none,
      marshalErrMsg := "json: unsupported type: func()" } rfl
  ⟨T.1, T.2.1, T.2.2.1 [HOp.write "x"] Sink.empty, T.2.2.2.1⟩

/-- Claim C7: the errorware pipeline applies the stages in registration
order; any stage placed after a prefix receives exactly the output of the
prefix (even when that output is nil, there is no nil guard), and the final
error is the output of the last stage. Wrap threads the merged error
through applyErrorware, so this characterizes its errorware handling. -/
theorem errorware_applied_in_order (pre : List Errorware) (f : Errorware)
    (post : List Errorware) (e0 : Option GoError) :
    applyErrorware (pre ++ f :: post) e0 =
      applyErrorware post (f (applyErrorware pre e0)) ∧
    applyErrorware (pre ++ [f]) e0 = f (applyErrorware pre e0) := by
  constructor
  · unfold applyErrorware
    rw [List.foldl_append, List.foldl_cons]
  · unfold applyErrorware
    rw [List.foldl_append, List.foldl_cons, List.foldl_nil]

/-- Counterexample to claim C8 as stated: for an opaque final error the
response does carry status 500, but its body is the reason phrase followed
by a newline (fmt.Fprintln inside http.Error), not the bare phrase, and the
generic error writer sets Content-Type and X-Content-Type-Options headers,
so the response does not have an empty header set. -/
theorem wrap_opaque_error_response_counterexample :
    (Wrap { ops := [], ret := some (GoError.basic "boom") } [] Sink.empty).status =
      [500] ∧
    (Wrap { ops := [], ret := some (GoError.basic "boom") } [] Sink.empty).body ≠
      "Internal Server Error" ∧
    (Wrap { ops := [], ret := some (GoError.basic "boom") } [] Sink.empty).header ≠
      [] := by
  refine ⟨rfl, ?_, ?_⟩
  · decide
  · decide

/-- Claim C8, amended: for every final non-nil error that does not resolve
to a renderable error, the response written to the real sink is status 500
with the standard reason phrase followed by a newline as body, and the only
headers present are the two the generic error writer itself sets
(Content-Type and X-Content-Type-Options); no buffered output or headers
are written. -/
theorem wrap_opaque_error_generic_500 (h : Handler) (ew : List Errorware)
    (e : GoError)
    (hfinal : applyErrorware ew
      (mergeErr (runOps h.ops bufferingResponseWriter.init).err h.ret) = some e)
    (hres : asHTTPResponseError e = none) :
    Wrap h ew Sink.empty =
      { header := [("Content-Type", ["text/plain; charset=utf-8"]),
                   ("X-Content-Type-Options", ["nosniff"])],
        status := [500], body := "Internal Server Error\n" } := by
  simp only [Wrap, hfinal, hres]
  exact httpError_empty (statusText 500) 500

/-- Witness for the amended C8: a handler returning a plain opaque error
with no errorware gets the generic 500 response. -/
theorem wrap_opaque_error_generic_500_witness :
    Wrap { ops := [], ret := some (GoError.basic "boom") } [] Sink.empty =
      { header := [("Content-Type", ["text/plain; charset=utf-8"]),
                   ("X-Content-Type-Options", ["nosniff"])],
        status := [500], body := "Internal Server Error\n" } :=
  wrap_opaque_error_generic_500
    { ops := [], ret := some (GoError.basic "boom") } [] (GoError.basic "boom")
    rfl rfl

/-- Claim C9: once the capture has recorded a discipline error, no later
sequence of writer operations replaces it: the recorded error after any
further operations is still the first one recorded. -/
theorem discipline_error_sticky (w : bufferingResponseWriter) (e : GoError)
    (ops : List HOp) (h : w.err = some e) : (runOps ops w).err = some e :=
  runOps_err_sticky ops w e h

/-- Witness for C9: a capture that already holds the multiple-calls
discipline error keeps exactly it across a further WriteHeader violation
and a body write. -/
theorem discipline_error_sticky_witness :
    (runOps [HOp.writeHeader 404, HOp.write "x"]
      { bufferingResponseWriter.init with
          err := some (ErrorText 500 "multiple calls to WriteHeader") }).err =
      some (ErrorText 500 "multiple calls to WriteHeader") :=
  discipline_error_sticky
    { bufferingResponseWriter.init with
        err := some (ErrorText 500 "multiple calls to WriteHeader") }
    (ErrorText 500 "multiple calls to WriteHeader")
    [HOp.writeHeader 404, HOp.write "x"] rfl

/-- Claim C10: for every byte slice and every prior capture state
(including states already holding a discipline error), the capture Write
operation reports the full input length and a nil error. -/
theorem buffering_write_returns_length_and_nil (w : bufferingResponseWriter)
    (b : String) : (w.Write b).2 = (b.length, none) := rfl

end HH
